import Mathlib

/-!
Verification of the A/B-testing analysis pipeline (`ab_testing/`).

The numeric domain of the Python code (IEEE doubles) is modelled by `ℚ`.
Library routines whose values are transcendental (`np.sqrt`, `np.arcsin`,
`scipy.stats.norm.cdf/ppf`, `scipy.stats.t.ppf`, `scipy.stats.ttest_ind`)
are abstracted as fields of a `NumLib` record; theorems state the
hypotheses about them (non-negativity, CDF range, ...) that the real
library functions satisfy.  A non-finite float outcome (NaN or inf, and
the `OverflowError`/`ValueError` raised when such a value reaches
`int(...)`) is modelled by `none`; computations the claims only consider
on finite inputs use plain `ℚ` arithmetic with the zero-denominator cases
excluded by the theorems' hypotheses.

Effect-size formulas are additionally embedded over `ℝ` with the genuine
`Real.sqrt` / `Real.arcsin` (definitions suffixed `R`), so that range
facts such as membership of Cohen's h in `[0, π]` can be proved against
the actual inverse-sine function.
-/

namespace AB

/-- Floor of a rational number, computed from the numerator and
denominator so that concrete values reduce. -/
def ratFloor (x : ℚ) : ℤ := x.num / x.den

/-- Ceiling of a rational number (`np.ceil`). -/
def ratCeil (x : ℚ) : ℤ := -ratFloor (-x)

/-- Python's `round(x, d)`: round to `d` decimal digits.  Python rounds
half-to-even on the binary float; the model rounds half up.  The two
agree except on exact decimal ties, which no claim exercises. -/
def roundTo (d : ℕ) (x : ℚ) : ℚ := ((ratFloor (x * 10 ^ d + 1 / 2) : ℤ) : ℚ) / 10 ^ d

/-- Abstract interface to the numeric-library routines used by the
pipeline.  `ttest_ind` stands for `scipy.stats.ttest_ind(a, b,
equal_var=False)`, returning the pair (statistic, p-value). -/
structure NumLib where
  sqrt : ℚ → ℚ
  normCdf : ℚ → ℚ
  normPpf : ℚ → ℚ
  arcsin : ℚ → ℚ
  tPpf : ℚ → ℚ → ℚ
  ttest_ind : List ℚ → List ℚ → ℚ × ℚ

/-- One observation row.  The `user_id` and `date` columns are never read
by the functions under study and are omitted.  `converted` is 0/1-valued
in the generated data but all functions treat it numerically. -/
structure Row where
  group : String
  converted : ℚ
  time_spent : ℚ
  clicks : ℚ
  session_count : ℚ
  deriving DecidableEq

/-- The dataframe, as its list of rows. -/
abbrev Dataset := List Row

/-- Rows of the control partition: `df[df["group"] == "control"]`. -/
def controlOf (df : Dataset) : Dataset := df.filter (fun r => r.group == "control")

/-- Rows of the variant partition: `df[df["group"] == "variant"]`. -/
def variantOf (df : Dataset) : Dataset := df.filter (fun r => r.group == "variant")

/-- Rows whose group label is one of the two valid labels. -/
def validRows (df : Dataset) : Dataset :=
  df.filter (fun r => r.group == "control" || r.group == "variant")

/-- Mean of a list of values.  On an empty list the `ℚ` junk value `0/0 = 0`
results; call sites either exclude that case by hypothesis or use
`meanOpt`. -/
def qmean (xs : List ℚ) : ℚ := xs.sum / xs.length

/-- Mean as pandas computes it: NaN (modelled `none`) on an empty column. -/
def meanOpt (xs : List ℚ) : Option ℚ := if xs.isEmpty then none else some (qmean xs)

/-- Sample variance with `ddof=1` (pandas/`numpy` default in this code). -/
def qvar (xs : List ℚ) : ℚ :=
  ((xs.map (fun x => (x - qmean xs) ^ 2)).sum) / ((xs.length : ℚ) - 1)

/-- Sample standard deviation, `series.std()` = sqrt of the `ddof=1` variance. -/
def qstd (L : NumLib) (xs : List ℚ) : ℚ := L.sqrt (qvar xs)

/-- Sum of the `converted` column of a partition. -/
def conversions (xs : Dataset) : ℚ := (xs.map (·.converted)).sum

/-- Row count of a partition, as a numeric value. -/
def nrows (xs : Dataset) : ℚ := xs.length

/-! ## hypothesis_tests.py -/

/-- Result of one hypothesis test (the `TestResult` dataclass).  The
`interpretation` string is presentation-only and is not modelled; the one
numeric quantity embedded in it that a claim addresses (the uplift) is
modelled separately by `two_proportion_uplift`. -/
structure TestResult where
  metric : String
  test_type : String
  statistic : ℚ
  p_value : ℚ
  significant : Bool
  alpha : ℚ
  deriving DecidableEq

/-- Fallback `proportions_ztest` (hypothesis_tests.py lines 16-23), the
in-repo implementation of the two-proportion z statistic and two-tailed
p-value.  `count` and `nobs` are the two-element arrays passed by the
caller. -/
def proportions_ztest (L : NumLib) (count nobs : ℚ × ℚ) : ℚ × ℚ :=
  let p1 := count.1 / nobs.1
  let p2 := count.2 / nobs.2
  let p_pool := (count.1 + count.2) / (nobs.1 + nobs.2)
  let se := L.sqrt (p_pool * (1 - p_pool) * (1 / nobs.1 + 1 / nobs.2))
  let z := if 0 < se then (p1 - p2) / se else 0
  let p := 2 * (1 - L.normCdf |z|)
  (z, p)

/-- Two-proportion z-test on the dataframe (hypothesis_tests.py lines
38-82).  The caller packs `count = [conv_v, conv_c]` and
`nobs = [n_v, n_c]`, so the statistic is oriented variant minus control. -/
def two_proportion_ztest (L : NumLib) (df : Dataset) (alpha : ℚ) : TestResult :=
  let control := controlOf df
  let variant := variantOf df
  let n_c := nrows control
  let n_v := nrows variant
  let conv_c := conversions control
  let conv_v := conversions variant
  let zp := proportions_ztest L (conv_v, conv_c) (n_v, n_c)
  { metric := "conversion_rate"
    test_type := "Two-Proportion Z-Test"
    statistic := roundTo 4 zp.1
    p_value := roundTo 6 zp.2
    significant := decide (zp.2 < alpha)
    alpha := alpha }

/-- Uplift computed inside `two_proportion_ztest` for its interpretation
string (hypothesis_tests.py lines 62-64): `((rate_v - rate_c) / rate_c) * 100`
with no guard on `rate_c`.  When `rate_c = 0` the float division yields a
non-finite value (inf or NaN, also when `n_c = 0` makes `rate_c` NaN),
modelled `none`. -/
def two_proportion_uplift (df : Dataset) : Option ℚ :=
  let control := controlOf df
  let variant := variantOf df
  let rate_c := conversions control / nrows control
  let rate_v := conversions variant / nrows variant
  if rate_c = 0 then none else some (((rate_v - rate_c) / rate_c) * 100)

/-- Welch t-test on one continuous metric (hypothesis_tests.py lines
85-121).  The metric column is selected by the accessor `get`; the data
carries no missing values, so `.dropna()` is the identity.  The statistic
and p-value come from the external `scipy.stats.ttest_ind`, abstract in
`L`. -/
def independent_ttest (L : NumLib) (df : Dataset) (metricName : String)
    (get : Row → ℚ) (alpha : ℚ) : TestResult :=
  let control_vals := (controlOf df).map get
  let variant_vals := (variantOf df).map get
  let tp := L.ttest_ind control_vals variant_vals
  { metric := metricName
    test_type := "Independent T-Test (Welch)"
    statistic := roundTo 4 tp.1
    p_value := roundTo 6 tp.2
    significant := decide (tp.2 < alpha)
    alpha := alpha }

/-- The dict returned by `run_all_tests`, with its three fixed keys. -/
structure AllTests where
  conversion_rate : TestResult
  time_spent : TestResult
  clicks : TestResult
  deriving DecidableEq

/-- Full hypothesis-testing suite (hypothesis_tests.py lines 124-134). -/
def run_all_tests (L : NumLib) (df : Dataset) (alpha : ℚ) : AllTests :=
  { conversion_rate := two_proportion_ztest L df alpha
    time_spent := independent_ttest L df "time_spent" Row.time_spent alpha
    clicks := independent_ttest L df "clicks" Row.clicks alpha }

/-! Spec-side formulas for the two-proportion test (spec §4.2), named
`spec_*`; claim C1 compares the code's test against them. -/

/-- Modelled from the spec: pooled proportion
`(conversions_control + conversions_variant) / (n_control + n_variant)`. -/
def spec_p_pool (df : Dataset) : ℚ :=
  (conversions (controlOf df) + conversions (variantOf df)) /
    (nrows (controlOf df) + nrows (variantOf df))

/-- Modelled from the spec: standard error
`sqrt(p_pool * (1 - p_pool) * (1/n_control + 1/n_variant))`. -/
def spec_SE (L : NumLib) (df : Dataset) : ℚ :=
  L.sqrt (spec_p_pool df * (1 - spec_p_pool df) *
    (1 / nrows (controlOf df) + 1 / nrows (variantOf df)))

/-- Modelled from the spec: `z = (p_variant - p_control) / SE`, 0 if SE is 0. -/
def spec_z (L : NumLib) (df : Dataset) : ℚ :=
  if spec_SE L df = 0 then 0
  else (conversions (variantOf df) / nrows (variantOf df) -
        conversions (controlOf df) / nrows (controlOf df)) / spec_SE L df

/-- Modelled from the spec: two-tailed p-value `2 * (1 - Phi |z|)`. -/
def spec_pval (L : NumLib) (df : Dataset) : ℚ :=
  2 * (1 - L.normCdf |spec_z L df|)

/-! ## confidence_intervals.py -/

/-- One interval record as returned by the CI functions. -/
structure ConfidenceInterval where
  metric : String
  lower : ℚ
  upper : ℚ
  point_estimate : ℚ
  confidence_level : ℚ
  deriving DecidableEq

/-- Normal-approximation CI for the conversion-rate difference
(confidence_intervals.py lines 11-38).  With an empty partition the
pandas means are NaN and every bound of the returned dict is NaN; that
non-finite outcome is modelled `none`. -/
def ci_difference_proportions (L : NumLib) (df : Dataset) (confidence : ℚ) :
    Option ConfidenceInterval :=
  let control := controlOf df
  let variant := variantOf df
  if control.length = 0 ∨ variant.length = 0 then none else
  let n_c := nrows control
  let n_v := nrows variant
  let p_c := qmean (control.map (·.converted))
  let p_v := qmean (variant.map (·.converted))
  let diff := p_v - p_c
  let se := L.sqrt (p_c * (1 - p_c) / n_c + p_v * (1 - p_v) / n_v)
  let z := L.normPpf (1 - (1 - confidence) / 2)
  some { metric := "conversion_rate_difference"
         lower := roundTo 6 (diff - z * se)
         upper := roundTo 6 (diff + z * se)
         point_estimate := roundTo 6 diff
         confidence_level := confidence }

/-- Welch CI for a mean difference (confidence_intervals.py lines 41-75).
Non-finite outcomes are modelled `none`: a partition with fewer than two
values makes the `ddof=1` variance NaN, and a zero Welch-Satterthwaite
denominator makes `df_welch` NaN (hence the critical value and both
bounds). -/
def ci_difference_means (L : NumLib) (df : Dataset) (metricName : String)
    (get : Row → ℚ) (confidence : ℚ) : Option ConfidenceInterval :=
  let control_vals := (controlOf df).map get
  let variant_vals := (variantOf df).map get
  if control_vals.length < 2 ∨ variant_vals.length < 2 then none else
  let mean_c := qmean control_vals
  let mean_v := qmean variant_vals
  let diff := mean_v - mean_c
  let n_c : ℚ := control_vals.length
  let n_v : ℚ := variant_vals.length
  let var_c := qvar control_vals
  let var_v := qvar variant_vals
  let se := L.sqrt (var_c / n_c + var_v / n_v)
  let wdenom := (var_c / n_c) ^ 2 / (n_c - 1) + (var_v / n_v) ^ 2 / (n_v - 1)
  if wdenom = 0 then none else
  let df_welch := (var_c / n_c + var_v / n_v) ^ 2 / wdenom
  let t_crit := L.tPpf (1 - (1 - confidence) / 2) df_welch
  some { metric := metricName ++ "_difference"
         lower := roundTo 4 (diff - t_crit * se)
         upper := roundTo 4 (diff + t_crit * se)
         point_estimate := roundTo 4 diff
         confidence_level := confidence }

/-- The dict returned by `compute_all_cis`, with its three fixed keys. -/
structure AllCIs where
  conversion_rate : Option ConfidenceInterval
  time_spent : Option ConfidenceInterval
  clicks : Option ConfidenceInterval
  deriving DecidableEq

/-- Confidence intervals for all metrics (confidence_intervals.py lines 78-84). -/
def compute_all_cis (L : NumLib) (df : Dataset) (confidence : ℚ) : AllCIs :=
  { conversion_rate := ci_difference_proportions L df confidence
    time_spent := ci_difference_means L df "time_spent" Row.time_spent confidence
    clicks := ci_difference_means L df "clicks" Row.clicks confidence }

/-! ## business_insights.py -/

/-- Per-group block of the metrics summary.  Mean aggregates are NaN
(`none`) when the partition is empty; `int(sum)` of the empty `converted`
column is 0, so `total_conversions` is total. -/
structure GroupSummary where
  n_users : ℕ
  conversion_rate : Option ℚ
  avg_time_spent : Option ℚ
  avg_clicks : Option ℚ
  avg_session_count : Option ℚ
  total_conversions : ℚ
  deriving DecidableEq

/-- The `differences` block of the metrics summary. -/
structure Differences where
  conversion_rate_diff : Option ℚ
  time_spent_diff : Option ℚ
  clicks_diff : Option ℚ
  deriving DecidableEq

/-- The dict returned by `compute_metrics_summary`. -/
structure MetricsSummary where
  control : GroupSummary
  variant : GroupSummary
  differences : Differences
  deriving DecidableEq

/-- `round(x, d)` lifted over a possibly-NaN value: `round(nan)` is NaN. -/
def optRound (d : ℕ) : Option ℚ → Option ℚ := Option.map (roundTo d)

/-- Subtraction lifted over possibly-NaN values: NaN propagates. -/
def optSub (a b : Option ℚ) : Option ℚ :=
  match a, b with
  | some x, some y => some (x - y)
  | _, _ => none

/-- The per-group fields of business_insights.py lines 14-29 (the same
five expressions are written out once per group in the source). -/
def groupSummary (xs : Dataset) : GroupSummary :=
  { n_users := xs.length
    conversion_rate := optRound 4 (meanOpt (xs.map (·.converted)))
    avg_time_spent := optRound 4 (meanOpt (xs.map (·.time_spent)))
    avg_clicks := optRound 4 (meanOpt (xs.map (·.clicks)))
    avg_session_count := optRound 4 (meanOpt (xs.map (·.session_count)))
    total_conversions := (xs.map (·.converted)).sum }

/-- Summary metrics for both groups (business_insights.py lines 8-35).
The function has no failure path: empty partitions silently yield NaN
means. -/
def compute_metrics_summary (df : Dataset) : MetricsSummary :=
  let control := controlOf df
  let variant := variantOf df
  { control := groupSummary control
    variant := groupSummary variant
    differences :=
      { conversion_rate_diff := optRound 4 (optSub (meanOpt (variant.map (·.converted)))
          (meanOpt (control.map (·.converted))))
        time_spent_diff := optRound 4 (optSub (meanOpt (variant.map (·.time_spent)))
          (meanOpt (control.map (·.time_spent))))
        clicks_diff := optRound 4 (optSub (meanOpt (variant.map (·.clicks)))
          (meanOpt (control.map (·.clicks)))) } }

/-- Decision output of `generate_business_insights`.  The `insights` list
and the `rationale` are formatted presentation strings and are not
modelled; the recommendation label and the two counts are. -/
structure Insights where
  recommendation : String
  significant_metrics : ℕ
  total_metrics_tested : ℕ
  deriving DecidableEq

/-- Recommendation logic of business_insights.py lines 38-110.  The
source reads `test_results[...]["significant"]` for the three metrics and
`power["conversion_uplift_pct"]`; those are the two inputs taken here
(the `metrics` argument only feeds insight strings). -/
def generate_business_insights (test_results : AllTests) (uplift : ℚ) : Insights :=
  let conv_sig := test_results.conversion_rate.significant
  let time_sig := test_results.time_spent.significant
  let clicks_sig := test_results.clicks.significant
  let significant_count := (cond conv_sig 1 0) + (cond time_sig 1 0) + (cond clicks_sig 1 0)
  let recommendation :=
    if 2 ≤ significant_count ∧ conv_sig = true ∧ 0 < uplift then "ROLLOUT"
    else if conv_sig = true ∧ 5 < uplift then "ROLLOUT"
    else if significant_count = 1 ∧ conv_sig = false then "DO NOT ROLLOUT"
    else "MONITOR"
  { recommendation := recommendation
    significant_metrics := significant_count
    total_metrics_tested := 3 }

/-- Modelled from the spec: the §4.5 decision rule, four rules evaluated
in order with first match winning. -/
def specRecommendation (conv_sig time_sig clicks_sig : Bool) (uplift : ℚ) : String :=
  let count := (cond conv_sig 1 0) + (cond time_sig 1 0) + (cond clicks_sig 1 0)
  if 2 ≤ count ∧ conv_sig = true ∧ 0 < uplift then "ROLLOUT"
  else if conv_sig = true ∧ 5 < uplift then "ROLLOUT"
  else if count = 1 ∧ conv_sig = false then "DO NOT ROLLOUT"
  else "MONITOR"

/-- Modelled from the spec: the count of significant metrics among the
three test results. -/
def specSignificantCount (tr : AllTests) : ℕ :=
  (cond tr.conversion_rate.significant 1 0) + (cond tr.time_spent.significant 1 0) +
    (cond tr.clicks.significant 1 0)

/-! ## power_analysis.py -/

/-- Cohen's d (power_analysis.py lines 25-28), over the abstract `sqrt`. -/
def cohens_d (L : NumLib) (mean1 mean2 std1 std2 : ℚ) : ℚ :=
  let pooled_std := L.sqrt ((std1 ^ 2 + std2 ^ 2) / 2)
  if 0 < pooled_std then |mean2 - mean1| / pooled_std else 0

/-- Relative conversion uplift (power_analysis.py lines 31-33), guarded:
0 when `p_control` is not positive. -/
def conversion_uplift (p_control p_variant : ℚ) : ℚ :=
  if 0 < p_control then ((p_variant - p_control) / p_control) * 100 else 0

/-- Cohen's h (power_analysis.py lines 36-38), over the abstract
`arcsin` and `sqrt`. -/
def effect_size_proportions (L : NumLib) (p1 p2 : ℚ) : ℚ :=
  |2 * L.arcsin (L.sqrt p2) - 2 * L.arcsin (L.sqrt p1)|

/-- Fallback `NormalIndPower.solve_power` (power_analysis.py lines 12-16):
the closed-form required n, or `float("inf")` — modelled `none` — when the
effect size is not positive. -/
def NormalIndPower.solve_power (L : NumLib) (effect_size alpha power : ℚ) : Option ℚ :=
  if 0 < effect_size then
    some (((L.normPpf (1 - alpha / 2) + L.normPpf power) / effect_size) ^ 2)
  else none

/-- Fallback `TTestIndPower.solve_power` (power_analysis.py lines 18-22):
twice the normal closed form, or infinity (`none`) at effect size 0. -/
def TTestIndPower.solve_power (L : NumLib) (effect_size alpha power : ℚ) : Option ℚ :=
  if 0 < effect_size then
    some (2 * ((L.normPpf (1 - alpha / 2) + L.normPpf power) / effect_size) ^ 2)
  else none

/-- The dict built by `power_analysis_conversion`. -/
structure ConvPowerResult where
  test : String
  effect_size_h : ℚ
  required_sample_size_per_group : ℤ
  alpha : ℚ
  power : ℚ
  deriving DecidableEq

/-- The dict built by `power_analysis_ttest`. -/
structure TTestPowerResult where
  test : String
  cohens_d : ℚ
  required_sample_size_per_group : ℤ
  alpha : ℚ
  power : ℚ
  deriving DecidableEq

/-- Minimum sample size for the conversion test (power_analysis.py lines
41-59).  When `solve_power` yields infinity, `int(np.ceil(inf))` raises
`OverflowError`; that abort is modelled `none`. -/
def power_analysis_conversion (L : NumLib) (p_control p_variant alpha power : ℚ) :
    Option ConvPowerResult :=
  let effect_h := effect_size_proportions L p_control p_variant
  (NormalIndPower.solve_power L effect_h alpha power).map fun required_n =>
    { test := "Two-Proportion Z-Test"
      effect_size_h := roundTo 4 effect_h
      required_sample_size_per_group := ratCeil required_n
      alpha := alpha
      power := power }

/-- Minimum sample size for a t-test (power_analysis.py lines 62-83);
the same `int(np.ceil(inf))` abort is modelled `none`. -/
def power_analysis_ttest (L : NumLib) (mean1 mean2 std1 std2 : ℚ)
    (metricName : String) (alpha power : ℚ) : Option TTestPowerResult :=
  let d := cohens_d L mean1 mean2 std1 std2
  (TTestIndPower.solve_power L d alpha power).map fun required_n =>
    { test := "Independent T-Test (" ++ metricName ++ ")"
      cohens_d := roundTo 4 d
      required_sample_size_per_group := ratCeil required_n
      alpha := alpha
      power := power }

/-- The dict returned by `run_power_analysis`. -/
structure PowerOut where
  conversion_rate : ConvPowerResult
  time_spent : TTestPowerResult
  clicks : TTestPowerResult
  conversion_uplift_pct : ℚ
  actual_sample_size_per_group : ℕ
  deriving DecidableEq

/-- Full power analysis (power_analysis.py lines 86-118).  A partition
with fewer than two rows makes a pandas `ddof=1` std NaN; a NaN effect
size fails `effect_size > 0`, so `solve_power` yields infinity and the
`int(...)` conversion raises — every such run aborts, modelled `none`
(the same abort reached through the `Option.bind` chain when a computed
effect size is 0). -/
def run_power_analysis (L : NumLib) (df : Dataset) (alpha : ℚ) : Option PowerOut :=
  let control := controlOf df
  let variant := variantOf df
  if control.length < 2 ∨ variant.length < 2 then none else
  let p_c := qmean (control.map (·.converted))
  let p_v := qmean (variant.map (·.converted))
  (power_analysis_conversion L p_c p_v alpha (80 / 100)).bind fun conv_power =>
  (power_analysis_ttest L (qmean (control.map (·.time_spent)))
      (qmean (variant.map (·.time_spent))) (qstd L (control.map (·.time_spent)))
      (qstd L (variant.map (·.time_spent))) "time_spent" alpha (80 / 100)).bind fun time_power =>
  (power_analysis_ttest L (qmean (control.map (·.clicks)))
      (qmean (variant.map (·.clicks))) (qstd L (control.map (·.clicks)))
      (qstd L (variant.map (·.clicks))) "clicks" alpha (80 / 100)).bind fun clicks_power =>
  some { conversion_rate := conv_power
         time_spent := time_power
         clicks := clicks_power
         conversion_uplift_pct := roundTo 2 (conversion_uplift p_c p_v)
         actual_sample_size_per_group := control.length }

/-! ## Effect sizes over the reals

The two pure effect-size formulas, embedded a second time over `ℝ` with
the genuine square root and inverse sine, for the range facts of claim C7. -/

/-- Cohen's d (power_analysis.py lines 25-28) over `ℝ`. -/
noncomputable def cohens_dR (mean1 mean2 std1 std2 : ℝ) : ℝ :=
  let pooled_std := Real.sqrt ((std1 ^ 2 + std2 ^ 2) / 2)
  if 0 < pooled_std then |mean2 - mean1| / pooled_std else 0

/-- Cohen's h (power_analysis.py lines 36-38) over `ℝ`. -/
noncomputable def effect_size_proportionsR (p1 p2 : ℝ) : ℝ :=
  |2 * Real.arcsin (Real.sqrt p2) - 2 * Real.arcsin (Real.sqrt p1)|

/-! ## Concrete instances used by witnesses and counterexamples -/

/-- Library instance whose `sqrt`/`arcsin` are the identity and whose
quantile functions are the constant 1. -/
def Lid : NumLib :=
  { sqrt := fun x => x
    normCdf := fun _ => 1 / 2
    normPpf := fun _ => 1
    arcsin := fun x => x
    tPpf := fun _ _ => 1
    ttest_ind := fun _ _ => (0, 1) }

/-- Library instance whose `sqrt` is constantly 0 (so standard errors
vanish) and whose quantile functions are the constant 1. -/
def Lzero : NumLib :=
  { sqrt := fun _ => 0
    normCdf := fun _ => 1 / 2
    normPpf := fun _ => 1
    arcsin := fun _ => 0
    tPpf := fun _ _ => 1
    ttest_ind := fun _ _ => (0, 1) }

/-- Library instance like `Lzero` but whose normal CDF is the constant
`0.97500002`, a value in `[0, 1]` that drives the two-tailed p-value to
`0.04999996`. -/
def L10 : NumLib :=
  { Lzero with normCdf := fun _ => 97500002 / 100000000 }

/-- Two control rows (one conversion) and two variant rows (two
conversions), plus one row with an invalid group label. -/
def df1 : Dataset :=
  [⟨"control", 0, 10, 1, 1⟩, ⟨"control", 1, 20, 3, 2⟩,
   ⟨"variant", 1, 30, 2, 1⟩, ⟨"variant", 1, 40, 4, 2⟩,
   ⟨"other", 1, 99, 9, 9⟩]

/-- Dataset whose control partition is empty. -/
def df5 : Dataset := [⟨"variant", 1, 2, 3, 1⟩, ⟨"variant", 0, 4, 5, 2⟩]

/-- Dataset whose control partition is non-empty but has no conversions,
so the control conversion rate is 0. -/
def df6 : Dataset :=
  [⟨"control", 0, 1, 1, 1⟩, ⟨"control", 0, 2, 2, 1⟩,
   ⟨"variant", 1, 3, 3, 1⟩, ⟨"variant", 0, 4, 4, 1⟩]

/-- Three control rows and two variant rows with distinct group sizes,
means and conversion rates; every effect size is positive under `Lid`. -/
def df9 : Dataset :=
  [⟨"control", 0, 0, 0, 1⟩, ⟨"control", 0, 0, 0, 1⟩, ⟨"control", 0, 0, 0, 1⟩,
   ⟨"variant", 1, 1, 2, 1⟩, ⟨"variant", 1, 3, 4, 1⟩]

/-! ## Helper lemmas -/

theorem ratFloor_eq (x : ℚ) : ratFloor x = ⌊x⌋ := by
  rw [Rat.floor_def]; rfl

theorem ratCeil_eq (x : ℚ) : ratCeil x = ⌈x⌉ := by
  rw [ratCeil, ratFloor_eq, Int.floor_neg, neg_neg]

theorem ratCeil_nonneg {x : ℚ} (h : 0 ≤ x) : 0 ≤ ratCeil x := by
  rw [ratCeil_eq]
  exact Int.ceil_nonneg h

theorem roundTo_mono (d : ℕ) {x y : ℚ} (h : x ≤ y) : roundTo d x ≤ roundTo d y := by
  have h10 : (0 : ℚ) < 10 ^ d := by positivity
  have hf : ((ratFloor (x * 10 ^ d + 1 / 2) : ℤ) : ℚ) ≤
      ((ratFloor (y * 10 ^ d + 1 / 2) : ℤ) : ℚ) := by
    rw [ratFloor_eq, ratFloor_eq]
    exact_mod_cast Int.floor_le_floor (by nlinarith)
  unfold roundTo
  gcongr

theorem controlOf_validRows (df : Dataset) : controlOf (validRows df) = controlOf df := by
  induction df with
  | nil => rfl
  | cons r t ih =>
    by_cases h : r.group = "control"
    · simp [controlOf, validRows, List.filter_cons, h] at ih ⊢
      exact ih
    · by_cases h2 : r.group = "variant" <;>
        simp [controlOf, validRows, List.filter_cons, h, h2] at ih ⊢ <;> exact ih

theorem variantOf_validRows (df : Dataset) : variantOf (validRows df) = variantOf df := by
  induction df with
  | nil => rfl
  | cons r t ih =>
    by_cases h : r.group = "variant"
    · simp [variantOf, validRows, List.filter_cons, h] at ih ⊢
      exact ih
    · by_cases h2 : r.group = "control" <;>
        simp [variantOf, validRows, List.filter_cons, h, h2] at ih ⊢ <;> exact ih

theorem proportions_ztest_fst (L : NumLib) (df : Dataset) (hsq : ∀ x, 0 ≤ L.sqrt x) :
    (proportions_ztest L (conversions (variantOf df), conversions (controlOf df))
      (nrows (variantOf df), nrows (controlOf df))).1 = spec_z L df := by
  have harg : (conversions (variantOf df) + conversions (controlOf df)) /
        (nrows (variantOf df) + nrows (controlOf df)) *
        (1 - (conversions (variantOf df) + conversions (controlOf df)) /
          (nrows (variantOf df) + nrows (controlOf df))) *
        (1 / nrows (variantOf df) + 1 / nrows (controlOf df)) =
      spec_p_pool df * (1 - spec_p_pool df) *
        (1 / nrows (controlOf df) + 1 / nrows (variantOf df)) := by
    unfold spec_p_pool
    ring
  unfold proportions_ztest spec_z spec_SE
  simp only [harg]
  rcases eq_or_lt_of_le (hsq (spec_p_pool df * (1 - spec_p_pool df) *
      (1 / nrows (controlOf df) + 1 / nrows (variantOf df)))) with h0 | hpos
  · rw [if_neg (by rw [← h0]; exact lt_irrefl 0), if_pos h0.symm]
  · rw [if_pos hpos, if_neg (ne_of_gt hpos)]

theorem proportions_ztest_snd (L : NumLib) (df : Dataset) (hsq : ∀ x, 0 ≤ L.sqrt x) :
    (proportions_ztest L (conversions (variantOf df), conversions (controlOf df))
      (nrows (variantOf df), nrows (controlOf df))).2 = spec_pval L df := by
  have h1 := proportions_ztest_fst L df hsq
  unfold proportions_ztest at h1 ⊢
  unfold spec_pval
  simp only at h1 ⊢
  rw [h1]

theorem roundTo_between (d : ℕ) (diff c se : ℚ) (h : 0 ≤ c * se) :
    roundTo d (diff - c * se) ≤ roundTo d diff ∧
      roundTo d diff ≤ roundTo d (diff + c * se) :=
  ⟨roundTo_mono d (by linarith), roundTo_mono d (by linarith)⟩

/-! ## Claims -/

/-- C1: for every dataset with non-empty control and variant partitions,
the two-proportion test computes pooled proportion
`p_pool = (conv_c + conv_v) / (n_c + n_v)`, standard error
`SE = sqrt(p_pool (1-p_pool) (1/n_c + 1/n_v))`, statistic
`z = (p_variant - p_control)/SE` with `z = 0` when `SE = 0`, and
two-tailed p-value `2 (1 - Phi |z|)`; the result is significant iff the
p-value is below alpha.  The code's statistic and p-value (stored rounded
to 4 and 6 decimals) equal those spec formulas, and the significance flag
is the unrounded p-value compared against alpha. -/
theorem C1_two_proportion_ztest_formulas (L : NumLib) (df : Dataset) (alpha : ℚ)
    (hsq : ∀ x, 0 ≤ L.sqrt x) (_hc : controlOf df ≠ []) (_hv : variantOf df ≠ []) :
    (two_proportion_ztest L df alpha).statistic = roundTo 4 (spec_z L df) ∧
    (two_proportion_ztest L df alpha).p_value = roundTo 6 (spec_pval L df) ∧
    ((two_proportion_ztest L df alpha).significant = true ↔ spec_pval L df < alpha) := by
  unfold two_proportion_ztest
  simp [proportions_ztest_fst L df hsq, proportions_ztest_snd L df hsq,
    decide_eq_true_eq]

/-- Witness for C1 at a concrete library instance and dataset. -/
theorem C1_witness :
    (two_proportion_ztest Lzero df1 (1 / 20)).statistic = roundTo 4 (spec_z Lzero df1) ∧
    (two_proportion_ztest Lzero df1 (1 / 20)).p_value = roundTo 6 (spec_pval Lzero df1) ∧
    ((two_proportion_ztest Lzero df1 (1 / 20)).significant = true ↔
      spec_pval Lzero df1 < 1 / 20) :=
  C1_two_proportion_ztest_formulas Lzero df1 (1 / 20) (fun _ => le_refl 0)
    (by decide) (by decide)

/-- C2: every confidence interval any of the three CI functions returns
(on inputs where they produce a finite interval) satisfies
`lower ≤ point_estimate ≤ upper`, the three fields being rounded with the
per-interval rounding (6 decimals for the proportion interval, 4 for the
mean-difference intervals).  The critical-value hypotheses hold for the
real `norm.ppf`/`t.ppf` whenever the confidence level is at least 0. -/
theorem C2_ci_bounds_ordered (L : NumLib) (df : Dataset) (conf : ℚ)
    (ci : ConfidenceInterval)
    (hsq : ∀ x, 0 ≤ L.sqrt x)
    (hz : 0 ≤ L.normPpf (1 - (1 - conf) / 2))
    (ht : ∀ d, 0 ≤ L.tPpf (1 - (1 - conf) / 2) d)
    (hci : (compute_all_cis L df conf).conversion_rate = some ci ∨
           (compute_all_cis L df conf).time_spent = some ci ∨
           (compute_all_cis L df conf).clicks = some ci) :
    ci.lower ≤ ci.point_estimate ∧ ci.point_estimate ≤ ci.upper := by
  rcases hci with h | h | h
  · simp only [compute_all_cis, ci_difference_proportions] at h
    split_ifs at h
    rw [Option.some_inj] at h
    subst h
    exact roundTo_between 6 _ _ _ (mul_nonneg hz (hsq _))
  · simp only [compute_all_cis, ci_difference_means] at h
    split_ifs at h
    rw [Option.some_inj] at h
    subst h
    exact roundTo_between 4 _ _ _ (mul_nonneg (ht _) (hsq _))
  · simp only [compute_all_cis, ci_difference_means] at h
    split_ifs at h
    rw [Option.some_inj] at h
    subst h
    exact roundTo_between 4 _ _ _ (mul_nonneg (ht _) (hsq _))

/-- Witness for C2: the conversion-rate interval of a concrete run. -/
theorem C2_witness :
    (ConfidenceInterval.mk "conversion_rate_difference" (1 / 2) (1 / 2) (1 / 2)
        (95 / 100)).lower ≤
      (ConfidenceInterval.mk "conversion_rate_difference" (1 / 2) (1 / 2) (1 / 2)
        (95 / 100)).point_estimate ∧
    (ConfidenceInterval.mk "conversion_rate_difference" (1 / 2) (1 / 2) (1 / 2)
        (95 / 100)).point_estimate ≤
      (ConfidenceInterval.mk "conversion_rate_difference" (1 / 2) (1 / 2) (1 / 2)
        (95 / 100)).upper :=
  C2_ci_bounds_ordered Lzero df1 (95 / 100) _ (fun _ => le_refl 0)
    (by norm_num [Lzero]) (fun _ => by norm_num [Lzero])
    (Or.inl (by
      have hc : controlOf df1 = [⟨"control", 0, 10, 1, 1⟩, ⟨"control", 1, 20, 3, 2⟩] := by
        decide
      have hv : variantOf df1 = [⟨"variant", 1, 30, 2, 1⟩, ⟨"variant", 1, 40, 4, 2⟩] := by
        decide
      simp only [compute_all_cis, ci_difference_proportions, hc, hv]
      norm_num [qmean, Lzero, roundTo, ratFloor]))

/-- C3: the recommendation label follows the spec's four ordered rules
with first match winning, and the output always carries the count of
significant metrics and `total_metrics_tested = 3`. -/
theorem C3_recommendation_rule (tr : AllTests) (uplift : ℚ) :
    (generate_business_insights tr uplift).recommendation =
      specRecommendation tr.conversion_rate.significant tr.time_spent.significant
        tr.clicks.significant uplift ∧
    (generate_business_insights tr uplift).significant_metrics =
      specSignificantCount tr ∧
    (generate_business_insights tr uplift).total_metrics_tested = 3 :=
  ⟨rfl, rfl, rfl⟩

/-- C4 counterexample: with equal conversion rates the effect size is 0,
`solve_power` yields infinity, and `power_analysis_conversion` aborts in
`int(np.ceil(inf))` (modelled `none`) instead of returning without error. -/
theorem C4_counterexample :
    power_analysis_conversion Lid (1 / 2) (1 / 2) (5 / 100) (80 / 100) = none := by
  simp [power_analysis_conversion, effect_size_proportions, Lid,
    NormalIndPower.solve_power]

/-- C4 amended: `solve_power` yields infinity (modelled `none`) at effect
size 0 and the closed-form solution (doubled for the t-test) at positive
effect size; a successful `power_analysis_conversion` emits the ceiling of
that solution as a non-negative integer; but at effect size 0 the result
functions abort on the integer conversion of infinity instead of
returning. -/
theorem C4_sample_size (L : NumLib)
    (e alpha power q1 q2 m1 m2 s1 s2 p1 p2 mt1 mt2 st1 st2 : ℚ)
    (name name2 : String) (r : ConvPowerResult) (rt : TTestPowerResult)
    (he : 0 < e)
    (hr : power_analysis_conversion L p1 p2 alpha power = some r)
    (hrt : power_analysis_ttest L mt1 mt2 st1 st2 name2 alpha power = some rt)
    (hq : effect_size_proportions L q1 q2 = 0)
    (hd : cohens_d L m1 m2 s1 s2 = 0) :
    NormalIndPower.solve_power L 0 alpha power = none ∧
    TTestIndPower.solve_power L 0 alpha power = none ∧
    NormalIndPower.solve_power L e alpha power =
      some (((L.normPpf (1 - alpha / 2) + L.normPpf power) / e) ^ 2) ∧
    TTestIndPower.solve_power L e alpha power =
      some (2 * ((L.normPpf (1 - alpha / 2) + L.normPpf power) / e) ^ 2) ∧
    0 ≤ r.required_sample_size_per_group ∧
    r.required_sample_size_per_group =
      ratCeil (((L.normPpf (1 - alpha / 2) + L.normPpf power) /
        effect_size_proportions L p1 p2) ^ 2) ∧
    0 ≤ rt.required_sample_size_per_group ∧
    rt.required_sample_size_per_group =
      ratCeil (2 * ((L.normPpf (1 - alpha / 2) + L.normPpf power) /
        cohens_d L mt1 mt2 st1 st2) ^ 2) ∧
    power_analysis_conversion L q1 q2 alpha power = none ∧
    power_analysis_ttest L m1 m2 s1 s2 name alpha power = none := by
  have h1 : NormalIndPower.solve_power L 0 alpha power = none := by
    simp [NormalIndPower.solve_power]
  have h2 : TTestIndPower.solve_power L 0 alpha power = none := by
    simp [TTestIndPower.solve_power]
  have h3 : NormalIndPower.solve_power L e alpha power =
      some (((L.normPpf (1 - alpha / 2) + L.normPpf power) / e) ^ 2) := by
    rw [NormalIndPower.solve_power, if_pos he]
  have h4 : TTestIndPower.solve_power L e alpha power =
      some (2 * ((L.normPpf (1 - alpha / 2) + L.normPpf power) / e) ^ 2) := by
    rw [TTestIndPower.solve_power, if_pos he]
  have hpos : 0 < effect_size_proportions L p1 p2 := by
    by_contra hnp
    simp only [power_analysis_conversion, NormalIndPower.solve_power,
      if_neg hnp, Option.map_none'] at hr
    exact Option.noConfusion hr
  have hrec : r = ConvPowerResult.mk "Two-Proportion Z-Test"
      (roundTo 4 (effect_size_proportions L p1 p2))
      (ratCeil (((L.normPpf (1 - alpha / 2) + L.normPpf power) /
        effect_size_proportions L p1 p2) ^ 2)) alpha power := by
    simp only [power_analysis_conversion, NormalIndPower.solve_power,
      if_pos hpos, Option.map_some', Option.some_inj] at hr
    exact hr.symm
  have hpost : 0 < cohens_d L mt1 mt2 st1 st2 := by
    by_contra hnp
    simp only [power_analysis_ttest, TTestIndPower.solve_power,
      if_neg hnp, Option.map_none'] at hrt
    exact Option.noConfusion hrt
  have hrect : rt = TTestPowerResult.mk ("Independent T-Test (" ++ name2 ++ ")")
      (roundTo 4 (cohens_d L mt1 mt2 st1 st2))
      (ratCeil (2 * ((L.normPpf (1 - alpha / 2) + L.normPpf power) /
        cohens_d L mt1 mt2 st1 st2) ^ 2)) alpha power := by
    simp only [power_analysis_ttest, TTestIndPower.solve_power,
      if_pos hpost, Option.map_some', Option.some_inj] at hrt
    exact hrt.symm
  refine ⟨h1, h2, h3, h4, ?_, ?_, ?_, ?_, ?_, ?_⟩
  · rw [hrec]
    exact ratCeil_nonneg (sq_nonneg _)
  · rw [hrec]
  · rw [hrect]
    exact ratCeil_nonneg (by positivity)
  · rw [hrect]
  · simp [power_analysis_conversion, NormalIndPower.solve_power, hq]
  · simp [power_analysis_ttest, TTestIndPower.solve_power, hd]

/-- Witness for C4 at concrete inputs. -/
theorem C4_witness :
    NormalIndPower.solve_power Lid 0 (5 / 100) (80 / 100) = none ∧
    TTestIndPower.solve_power Lid 0 (5 / 100) (80 / 100) = none ∧
    NormalIndPower.solve_power Lid 1 (5 / 100) (80 / 100) =
      some (((Lid.normPpf (1 - (5 / 100) / 2) + Lid.normPpf (80 / 100)) / 1) ^ 2) ∧
    TTestIndPower.solve_power Lid 1 (5 / 100) (80 / 100) =
      some (2 * ((Lid.normPpf (1 - (5 / 100) / 2) + Lid.normPpf (80 / 100)) / 1) ^ 2) ∧
    0 ≤ (ConvPowerResult.mk "Two-Proportion Z-Test" 2 1 (5 / 100)
        (80 / 100)).required_sample_size_per_group ∧
    (ConvPowerResult.mk "Two-Proportion Z-Test" 2 1 (5 / 100)
        (80 / 100)).required_sample_size_per_group =
      ratCeil (((Lid.normPpf (1 - (5 / 100) / 2) + Lid.normPpf (80 / 100)) /
        effect_size_proportions Lid 0 1) ^ 2) ∧
    0 ≤ (TTestPowerResult.mk "Independent T-Test (time_spent)" 1 8 (5 / 100)
        (80 / 100)).required_sample_size_per_group ∧
    (TTestPowerResult.mk "Independent T-Test (time_spent)" 1 8 (5 / 100)
        (80 / 100)).required_sample_size_per_group =
      ratCeil (2 * ((Lid.normPpf (1 - (5 / 100) / 2) + Lid.normPpf (80 / 100)) /
        cohens_d Lid 0 2 0 2) ^ 2) ∧
    power_analysis_conversion Lid (1 / 2) (1 / 2) (5 / 100) (80 / 100) = none ∧
    power_analysis_ttest Lid 0 0 1 1 "time_spent" (5 / 100) (80 / 100) = none :=
  C4_sample_size Lid 1 (5 / 100) (80 / 100) (1 / 2) (1 / 2) 0 0 1 1 0 1 0 2 0 2
    "time_spent" "time_spent"
    (ConvPowerResult.mk "Two-Proportion Z-Test" 2 1 (5 / 100) (80 / 100))
    (TTestPowerResult.mk "Independent T-Test (time_spent)" 1 8 (5 / 100) (80 / 100))
    (by norm_num)
    (by
      simp [power_analysis_conversion, effect_size_proportions, Lid,
        NormalIndPower.solve_power, ratCeil, ratFloor, roundTo]
      norm_num [ratFloor])
    (by
      simp [power_analysis_ttest, cohens_d, Lid,
        TTestIndPower.solve_power, ratCeil, ratFloor, roundTo]
      norm_num [ratFloor])
    (by simp [effect_size_proportions, Lid])
    (by norm_num [cohens_d, Lid])

/-- C5 counterexample: on a dataset with an empty control partition,
`compute_metrics_summary` returns a result whose control mean aggregates
are NaN (`none`) — it does not signal any error. -/
theorem C5_counterexample :
    (compute_metrics_summary df5).control.conversion_rate = none ∧
    (compute_metrics_summary df5).control.avg_time_spent = none ∧
    (compute_metrics_summary df5).differences.conversion_rate_diff = none := by
  decide

/-- C5 amended: when the control or the variant partition is empty,
`compute_metrics_summary` raises no error and returns a summary whose
mean aggregates for the empty partition are NaN (with a zero user count
and zero total conversions), and whose cross-group differences are NaN. -/
theorem C5_empty_partition_nan (df : Dataset)
    (h : controlOf df = [] ∨ variantOf df = []) :
    (controlOf df = [] →
      (compute_metrics_summary df).control.conversion_rate = none ∧
      (compute_metrics_summary df).control.avg_time_spent = none ∧
      (compute_metrics_summary df).control.avg_clicks = none ∧
      (compute_metrics_summary df).control.avg_session_count = none ∧
      (compute_metrics_summary df).control.n_users = 0 ∧
      (compute_metrics_summary df).control.total_conversions = 0) ∧
    (variantOf df = [] →
      (compute_metrics_summary df).variant.conversion_rate = none ∧
      (compute_metrics_summary df).variant.avg_time_spent = none ∧
      (compute_metrics_summary df).variant.avg_clicks = none ∧
      (compute_metrics_summary df).variant.avg_session_count = none ∧
      (compute_metrics_summary df).variant.n_users = 0 ∧
      (compute_metrics_summary df).variant.total_conversions = 0) ∧
    (compute_metrics_summary df).differences.conversion_rate_diff = none ∧
    (compute_metrics_summary df).differences.time_spent_diff = none ∧
    (compute_metrics_summary df).differences.clicks_diff = none := by
  have hsubr : ∀ a : Option ℚ, optSub a none = none := by
    intro a; cases a <;> rfl
  have hsubl : ∀ a : Option ℚ, optSub none a = none := fun _ => rfl
  refine ⟨?_, ?_, ?_⟩
  · intro hc
    simp [compute_metrics_summary, groupSummary, hc, meanOpt, optRound]
  · intro hv
    simp [compute_metrics_summary, groupSummary, hv, meanOpt, optRound]
  · rcases h with hc | hv
    · simp [compute_metrics_summary, hc, meanOpt, optRound, hsubr]
    · simp [compute_metrics_summary, hv, meanOpt, optRound, hsubl]

/-- Witness for C5 at the concrete dataset with an empty control group. -/
theorem C5_witness :
    (controlOf df5 = [] →
      (compute_metrics_summary df5).control.conversion_rate = none ∧
      (compute_metrics_summary df5).control.avg_time_spent = none ∧
      (compute_metrics_summary df5).control.avg_clicks = none ∧
      (compute_metrics_summary df5).control.avg_session_count = none ∧
      (compute_metrics_summary df5).control.n_users = 0 ∧
      (compute_metrics_summary df5).control.total_conversions = 0) ∧
    (variantOf df5 = [] →
      (compute_metrics_summary df5).variant.conversion_rate = none ∧
      (compute_metrics_summary df5).variant.avg_time_spent = none ∧
      (compute_metrics_summary df5).variant.avg_clicks = none ∧
      (compute_metrics_summary df5).variant.avg_session_count = none ∧
      (compute_metrics_summary df5).variant.n_users = 0 ∧
      (compute_metrics_summary df5).variant.total_conversions = 0) ∧
    (compute_metrics_summary df5).differences.conversion_rate_diff = none ∧
    (compute_metrics_summary df5).differences.time_spent_diff = none ∧
    (compute_metrics_summary df5).differences.clicks_diff = none :=
  C5_empty_partition_nan df5 (Or.inl (by decide))

/-- C6 counterexample: on a dataset whose control group has no
conversions, the uplift computed inside the two-proportion test is an
unguarded division by `rate_c = 0`: its value is non-finite (`none`), not
the defined 0 the claim asserts for every uplift site. -/
theorem C6_counterexample :
    two_proportion_uplift df6 = none ∧ two_proportion_uplift df6 ≠ some 0 := by
  have hc : controlOf df6 = [⟨"control", 0, 1, 1, 1⟩, ⟨"control", 0, 2, 2, 1⟩] := by
    decide
  have hv : variantOf df6 = [⟨"variant", 1, 3, 3, 1⟩, ⟨"variant", 0, 4, 4, 1⟩] := by
    decide
  have h : two_proportion_uplift df6 = none := by
    simp [two_proportion_uplift, hc, hv, conversions, nrows]
  exact ⟨h, by rw [h]; simp⟩

/-- C6 amended: the power-analysis `conversion_uplift` is guarded and
returns 0 when the control rate is 0, but the two-proportion test's
interpretation uplift is an unguarded division that yields a non-finite
value (not 0) whenever the control conversion rate is 0. -/
theorem C6_uplift_zero_control (p_v : ℚ) (df : Dataset)
    (h : conversions (controlOf df) / nrows (controlOf df) = 0) :
    conversion_uplift 0 p_v = 0 ∧ two_proportion_uplift df = none := by
  constructor
  · simp [conversion_uplift]
  · simp [two_proportion_uplift, h]

/-- Witness for C6 at concrete inputs. -/
theorem C6_witness :
    conversion_uplift 0 (1 / 2) = 0 ∧ two_proportion_uplift df6 = none :=
  C6_uplift_zero_control (1 / 2) df6 (by
    have hc : controlOf df6 = [⟨"control", 0, 1, 1, 1⟩, ⟨"control", 0, 2, 2, 1⟩] := by
      decide
    simp [hc, conversions, nrows])

/-- C7: Cohen's d is non-negative and is 0 when the pooled standard
deviation is 0 (no division by zero), and for proportions in `[0, 1]`
Cohen's h lies in `[0, π]`. -/
theorem C7_effect_size_ranges (m1 m2 s1 s2 p1 p2 : ℝ)
    (_hp1 : 0 ≤ p1) (_hp2 : p1 ≤ 1) (_hp3 : 0 ≤ p2) (_hp4 : p2 ≤ 1) :
    0 ≤ cohens_dR m1 m2 s1 s2 ∧
    (Real.sqrt ((s1 ^ 2 + s2 ^ 2) / 2) = 0 → cohens_dR m1 m2 s1 s2 = 0) ∧
    0 ≤ effect_size_proportionsR p1 p2 ∧
    effect_size_proportionsR p1 p2 ≤ Real.pi := by
  refine ⟨?_, ?_, abs_nonneg _, ?_⟩
  · simp only [cohens_dR]
    split_ifs with hps
    · exact div_nonneg (abs_nonneg _) hps.le
    · exact le_refl 0
  · intro h0
    simp only [cohens_dR, h0, lt_irrefl, if_false]
  · unfold effect_size_proportionsR
    have ha2 : Real.arcsin (Real.sqrt p2) ≤ Real.pi / 2 :=
      Real.arcsin_le_pi_div_two _
    have ha2n : 0 ≤ Real.arcsin (Real.sqrt p2) :=
      Real.arcsin_nonneg.mpr (Real.sqrt_nonneg _)
    have ha1 : Real.arcsin (Real.sqrt p1) ≤ Real.pi / 2 :=
      Real.arcsin_le_pi_div_two _
    have ha1n : 0 ≤ Real.arcsin (Real.sqrt p1) :=
      Real.arcsin_nonneg.mpr (Real.sqrt_nonneg _)
    rw [abs_le]
    constructor <;> linarith

/-- Witness for C7 at concrete inputs. -/
theorem C7_witness :
    0 ≤ cohens_dR 0 1 1 1 ∧
    (Real.sqrt (((1 : ℝ) ^ 2 + 1 ^ 2) / 2) = 0 → cohens_dR 0 1 1 1 = 0) ∧
    0 ≤ effect_size_proportionsR 0 1 ∧
    effect_size_proportionsR 0 1 ≤ Real.pi :=
  C7_effect_size_ranges 0 1 1 1 0 1 (by norm_num) (by norm_num) (by norm_num)
    (by norm_num)

/-- C8: rows whose group label is neither "control" nor "variant" are
excluded from every computation — the metrics summary, the hypothesis
tests (including the interpretation uplift), the confidence intervals and
the power analysis each return on any dataset exactly what they return on
the dataset restricted to the two valid labels, and the invalid rows
never introduce a failure (the functions are total, and the fallible ones
fail on the full dataset exactly when they fail on the restricted one). -/
theorem C8_invalid_labels_ignored (L : NumLib) (df : Dataset) (alpha conf : ℚ) :
    compute_metrics_summary df = compute_metrics_summary (validRows df) ∧
    run_all_tests L df alpha = run_all_tests L (validRows df) alpha ∧
    two_proportion_uplift df = two_proportion_uplift (validRows df) ∧
    compute_all_cis L df conf = compute_all_cis L (validRows df) conf ∧
    run_power_analysis L df alpha = run_power_analysis L (validRows df) alpha := by
  have hc := controlOf_validRows df
  have hv := variantOf_validRows df
  refine ⟨?_, ?_, ?_, ?_, ?_⟩ <;>
    simp only [compute_metrics_summary, run_all_tests, two_proportion_ztest,
      independent_ttest, two_proportion_uplift, compute_all_cis,
      ci_difference_proportions, ci_difference_means, run_power_analysis, hc, hv]

/-- C9: whenever `run_power_analysis` returns a result, its
`actual_sample_size_per_group` field is the row count of the control
partition alone; the variant partition's size never enters it. -/
theorem C9_actual_sample_size (L : NumLib) (df : Dataset) (alpha : ℚ)
    (out : PowerOut) (h : run_power_analysis L df alpha = some out) :
    out.actual_sample_size_per_group = (controlOf df).length := by
  simp only [run_power_analysis] at h
  split_ifs at h
  rw [Option.bind_eq_some] at h
  obtain ⟨a, _, h⟩ := h
  rw [Option.bind_eq_some] at h
  obtain ⟨b, _, h⟩ := h
  rw [Option.bind_eq_some] at h
  obtain ⟨c, _, h⟩ := h
  rw [Option.some_inj] at h
  subst h
  rfl

/-- Witness for C9: a run on three control rows and two variant rows. -/
theorem C9_witness :
    (PowerOut.mk
      (ConvPowerResult.mk "Two-Proportion Z-Test" 2 1 (5 / 100) (80 / 100))
      (TTestPowerResult.mk "Independent T-Test (time_spent)" 1 8 (5 / 100) (80 / 100))
      (TTestPowerResult.mk "Independent T-Test (clicks)" (3 / 2) 4 (5 / 100) (80 / 100))
      0 3).actual_sample_size_per_group = (controlOf df9).length :=
  C9_actual_sample_size Lid df9 (5 / 100) _ (by
    have hc : controlOf df9 = [⟨"control", 0, 0, 0, 1⟩, ⟨"control", 0, 0, 0, 1⟩,
        ⟨"control", 0, 0, 0, 1⟩] := by decide
    have hv : variantOf df9 = [⟨"variant", 1, 1, 2, 1⟩, ⟨"variant", 1, 3, 4, 1⟩] := by
      decide
    simp only [run_power_analysis, hc, hv]
    norm_num [power_analysis_conversion, power_analysis_ttest,
      NormalIndPower.solve_power, TTestIndPower.solve_power,
      effect_size_proportions, cohens_d, conversion_uplift, qmean, qvar, qstd,
      Lid, roundTo, ratFloor, ratCeil, List.sum_cons]
    decide)

/-- C10: the significance flag of every test result is computed from the
unrounded p-value (`significant` iff unrounded p < alpha), while the
stored `p_value` is rounded to 6 decimals and the stored `statistic` to 4
decimals; consequently there are inputs on which a result is significant
although its stored `p_value` is at least alpha. -/
theorem C10_significance_unrounded (L : NumLib) (df : Dataset) (alpha : ℚ)
    (name : String) (get : Row → ℚ) :
    (two_proportion_ztest L df alpha).significant =
      decide ((proportions_ztest L (conversions (variantOf df), conversions (controlOf df))
        (nrows (variantOf df), nrows (controlOf df))).2 < alpha) ∧
    (two_proportion_ztest L df alpha).p_value =
      roundTo 6 (proportions_ztest L (conversions (variantOf df), conversions (controlOf df))
        (nrows (variantOf df), nrows (controlOf df))).2 ∧
    (two_proportion_ztest L df alpha).statistic =
      roundTo 4 (proportions_ztest L (conversions (variantOf df), conversions (controlOf df))
        (nrows (variantOf df), nrows (controlOf df))).1 ∧
    (independent_ttest L df name get alpha).significant =
      decide ((L.ttest_ind ((controlOf df).map get) ((variantOf df).map get)).2 < alpha) ∧
    (independent_ttest L df name get alpha).p_value =
      roundTo 6 (L.ttest_ind ((controlOf df).map get) ((variantOf df).map get)).2 ∧
    (independent_ttest L df name get alpha).statistic =
      roundTo 4 (L.ttest_ind ((controlOf df).map get) ((variantOf df).map get)).1 ∧
    ∃ L2 df2 a2, (∀ x, 0 ≤ L2.normCdf x ∧ L2.normCdf x ≤ 1) ∧
      (two_proportion_ztest L2 df2 a2).significant = true ∧
      a2 ≤ (two_proportion_ztest L2 df2 a2).p_value := by
  refine ⟨rfl, rfl, rfl, rfl, rfl, rfl, L10, df1, 5 / 100, ?_, ?_, ?_⟩
  · intro x
    constructor <;> norm_num [L10, Lzero]
  · have hc : controlOf df1 = [⟨"control", 0, 10, 1, 1⟩, ⟨"control", 1, 20, 3, 2⟩] := by
      decide
    have hv : variantOf df1 = [⟨"variant", 1, 30, 2, 1⟩, ⟨"variant", 1, 40, 4, 2⟩] := by
      decide
    simp only [two_proportion_ztest, proportions_ztest, hc, hv, decide_eq_true_eq]
    norm_num [L10, Lzero, conversions, nrows]
  · have hc : controlOf df1 = [⟨"control", 0, 10, 1, 1⟩, ⟨"control", 1, 20, 3, 2⟩] := by
      decide
    have hv : variantOf df1 = [⟨"variant", 1, 30, 2, 1⟩, ⟨"variant", 1, 40, 4, 2⟩] := by
      decide
    simp only [two_proportion_ztest, proportions_ztest, hc, hv]
    norm_num [L10, Lzero, conversions, nrows, roundTo, ratFloor]

end AB
